import Mathlib

/-!
Shallow embedding of the measurement engine of OEval:
  - src/api/services/benchmarkService.ts  (class BenchmarkService)
  - src/api/services/reliabilityService.ts (class ReliabilityService)

Modelling conventions.
  - JavaScript numbers are modelled as rationals (elapsed milliseconds,
    rates) or integers (scores, counts).  All arithmetic in the two
    services stays on values where IEEE double arithmetic is irrelevant
    to the claims only when it is exact; rates such as successCount /
    totalRequests * 100 are modelled exactly as rationals.
  - A single outbound fetch either yields an HTTP response (a status
    code plus the elapsed time measured around the call) or throws a
    transport error after some elapsed time.  The response.ok flag of
    the WHATWG fetch API is status in [200, 300).
  - The services only write through the storage module; each write can
    throw.  A run of a service method is parametrised by the fetch
    outcomes it observes and by which storage writes throw, and returns
    the list of storage operations that actually executed.
  - Wall-clock driven loops are parametrised by their observed clock:
    for the response-time loop a function giving, per iteration, whether
    Date.now() < endTime still held; for the other profile loops the
    list of fetch outcomes that occurred before the deadline expired.
-/

/-- Outcome of one `fetch` call: either a response with an HTTP status
code and the elapsed time in milliseconds, or a thrown transport error
(timeout, DNS failure, connection refused) after some elapsed time. -/
inductive FetchOut where
  | response (status : Nat) (elapsed : ℚ)
  | thrown (elapsed : ℚ)
deriving DecidableEq

/-- The WHATWG fetch `response.ok` flag: status in the range [200, 300). -/
def respOk (status : Nat) : Bool :=
  decide (200 ≤ status) && decide (status < 300)

/-- True when the fetch produced an actual HTTP response (did not throw). -/
def FetchOut.gotResponse : FetchOut → Bool
  | .response _ _ => true
  | .thrown _ => false

namespace ReliabilityService

/-- interface UptimeResult of reliabilityService.ts: uptime, responseTime,
isOnline, optional statusCode. -/
structure UptimeResult where
  uptime : ℚ
  responseTime : ℚ
  isOnline : Bool
  statusCode : Option Nat
deriving DecidableEq

/-- performUptimeCheck (reliabilityService.ts lines 72-102): issues one
HEAD fetch; on a response it reports binary uptime, the measured elapsed
time, isOnline := response.ok and the status code; in the catch branch it
returns uptime 0, responseTime 0, isOnline false, and no status code.
The source wraps the whole body in try/catch, so the function is total:
it never propagates an exception.  Here it is a total function of the
fetch outcome. -/
def performUptimeCheck : FetchOut → UptimeResult
  | .response status elapsed =>
      let isOnline := respOk status
      { uptime := if isOnline then 100 else 0
        responseTime := elapsed
        isOnline := isOnline
        statusCode := some status }
  | .thrown _ =>
      { uptime := 0, responseTime := 0, isOnline := false, statusCode := none }

/-- calculateSLACompliance (reliabilityService.ts lines 104-122):
0 when offline; else 100 minus 50/25/10 for responseTime above
5000/2000/1000 ms, clamped to [0, 100]. -/
def calculateSLACompliance (result : UptimeResult) : ℤ :=
  let compliance : ℤ := 100
  let compliance : ℤ :=
    if !result.isOnline then 0
    else if result.responseTime > 5000 then compliance - 50
    else if result.responseTime > 2000 then compliance - 25
    else if result.responseTime > 1000 then compliance - 10
    else compliance
  max 0 (min 100 compliance)

/-- calculatePerformanceScore (reliabilityService.ts lines 124-141):
0 when offline; else 100 minus 40/20/10 for responseTime above
3000/1000/500 ms, clamped to [0, 100]. -/
def calculatePerformanceScore (result : UptimeResult) : ℤ :=
  if !result.isOnline then 0
  else
    let score : ℤ := 100
    let score : ℤ :=
      if result.responseTime > 3000 then score - 40
      else if result.responseTime > 1000 then score - 20
      else if result.responseTime > 500 then score - 10
      else score
    max 0 (min 100 score)

/-- One row given to storage.createReliabilityMetrics.  The source
stringifies uptime, slaCompliance and mttr; the numeric values are
modelled. -/
structure ReliabilityMetricsRecord where
  uptime : ℚ
  slaCompliance : ℤ
  outageCount : Nat
  mttr : ℤ
deriving DecidableEq

/-- One row given to storage.createPerformanceMetrics.  The source
stringifies responseTime, uptime and errorRate; the numeric values are
modelled. -/
structure PerformanceMetricsRecord where
  responseTime : ℚ
  uptime : ℚ
  errorRate : ℚ
  performanceScore : ℤ
deriving DecidableEq

/-- A write the Monitor performs through the storage interface during
one tick. -/
inductive MonitorWrite where
  | reliability (record : ReliabilityMetricsRecord)
  | performance (record : PerformanceMetricsRecord)
deriving DecidableEq

/-- True for the reliability-metrics write of a tick. -/
def isReliabilityWrite : MonitorWrite → Bool
  | .reliability _ => true
  | .performance _ => false

/-- True for the performance-metrics write of a tick. -/
def isPerformanceWrite : MonitorWrite → Bool
  | .reliability _ => false
  | .performance _ => true

/-- checkReliability (reliabilityService.ts lines 36-70): one Monitor
tick.  performUptimeCheck never throws, so the try block can only throw
in one of its two storage writes; `relWriteThrows` and `perfWriteThrows`
say whether createReliabilityMetrics resp. createPerformanceMetrics
throws.  The returned list holds the writes that executed, in order: a
throwing write does not execute, control jumps to the catch branch,
which stores the fixed failure record uptime "0", slaCompliance "0",
outageCount 1, mttr "1".  (The catch-branch write itself is modelled as
succeeding.) -/
def checkReliability (probe : FetchOut) (relWriteThrows perfWriteThrows : Bool) :
    List MonitorWrite :=
  let result := performUptimeCheck probe
  let relRecord : ReliabilityMetricsRecord :=
    { uptime := result.uptime
      slaCompliance := calculateSLACompliance result
      outageCount := if result.isOnline then 0 else 1
      mttr := if result.isOnline then 0 else 1 }
  let failureRecord : ReliabilityMetricsRecord :=
    { uptime := 0, slaCompliance := 0, outageCount := 1, mttr := 1 }
  if relWriteThrows then
    [.reliability failureRecord]
  else if perfWriteThrows then
    [.reliability relRecord, .reliability failureRecord]
  else
    let perfRecord : PerformanceMetricsRecord :=
      { responseTime := result.responseTime
        uptime := result.uptime
        errorRate := if result.isOnline then 0 else 100
        performanceScore := calculatePerformanceScore result }
    [.reliability relRecord, .performance perfRecord]

/-- The record-pair shape the spec promises for every tick: exactly one
reliability record and exactly one performance record. -/
def isRecordPair (writes : List MonitorWrite) : Bool :=
  (writes.countP isReliabilityWrite == 1) && (writes.countP isPerformanceWrite == 1)

end ReliabilityService

namespace BenchmarkService

/-- interface BenchmarkResult of benchmarkService.ts. -/
structure BenchmarkResult where
  averageResponseTime : ℚ
  successRate : ℚ
  errorRate : ℚ
  totalRequests : Nat
  successfulRequests : Nat
  failedRequests : Nat
deriving DecidableEq

/-- JavaScript Math.round on a (non-NaN, finite) number: round half
towards positive infinity, i.e. the floor of x + 1/2. -/
def jsRound (x : ℚ) : ℤ :=
  ⌊x + 1 / 2⌋

/-- The source's two-decimal rounding idiom Math.round(x * 100) / 100. -/
def round2 (x : ℚ) : ℚ :=
  (jsRound (x * 100) : ℚ) / 100

/-- A rational that carries at most two decimal places (its value times
100 is an integer), the shape the spec means by "rounded to 2 decimal
places". -/
def twoDecimalPlaces (x : ℚ) : Bool :=
  (x * 100).den == 1

/-- The aggregation tail of runResponseTimeTest (benchmarkService.ts
lines 127-139): totalRequests = successCount + failCount, average of the
collected (successful) response times rounded with Math.round (0 when
none), and success/error rates Math.round(r * 100 * 100) / 100 (0 when
totalRequests = 0). -/
def aggregateRounded (successCount failCount : Nat) (responses : List ℚ) :
    BenchmarkResult :=
  let totalRequests := successCount + failCount
  { averageResponseTime :=
      if responses.length > 0 then (jsRound (responses.sum / responses.length) : ℚ)
      else 0
    successRate :=
      if totalRequests > 0 then round2 ((successCount : ℚ) / (totalRequests : ℚ) * 100)
      else 0
    errorRate :=
      if totalRequests > 0 then round2 ((failCount : ℚ) / (totalRequests : ℚ) * 100)
      else 0
    totalRequests := totalRequests
    successfulRequests := successCount
    failedRequests := failCount }

/-- The aggregation tail shared verbatim by runLoadTest (lines 186-198),
runStressTest (lines 262-274) and runReliabilityTest (lines 315-328):
same as the response-time tail but with no rounding at all — raw mean of
the collected response times and raw percentages. -/
def aggregateRaw (successCount failCount : Nat) (responses : List ℚ) :
    BenchmarkResult :=
  let totalRequests := successCount + failCount
  { averageResponseTime :=
      if responses.length > 0 then responses.sum / responses.length
      else 0
    successRate :=
      if totalRequests > 0 then (successCount : ℚ) / (totalRequests : ℚ) * 100
      else 0
    errorRate :=
      if totalRequests > 0 then (failCount : ℚ) / (totalRequests : ℚ) * 100
      else 0
    totalRequests := totalRequests
    successfulRequests := successCount
    failedRequests := failCount }

/-- The per-sample accumulator shared by the profile loops: the
successCount and failCount counters and the responses array (which only
ever receives the elapsed times of successful requests). -/
structure SampleAcc where
  successCount : Nat
  failCount : Nat
  responses : List ℚ
deriving DecidableEq

/-- One iteration's effect on the accumulator, as written in each
profile loop: a response with response.ok true pushes its elapsed time
and bumps successCount; a non-ok response or a thrown fetch bumps
failCount only. -/
def recordSample (acc : SampleAcc) : FetchOut → SampleAcc
  | .response status elapsed =>
      if respOk status then
        { acc with successCount := acc.successCount + 1
                   responses := acc.responses ++ [elapsed] }
      else
        { acc with failCount := acc.failCount + 1 }
  | .thrown _ =>
      { acc with failCount := acc.failCount + 1 }

/-- Accumulate a whole run's fetch outcomes, in completion order. -/
def collectSamples (samples : List FetchOut) : SampleAcc :=
  samples.foldl recordSample ⟨0, 0, []⟩

/-- The elapsed times of the successful (response.ok) outcomes of a run,
in order. -/
def successElapsed (samples : List FetchOut) : List ℚ :=
  samples.filterMap fun o =>
    match o with
    | .response status elapsed => if respOk status then some elapsed else none
    | .thrown _ => none

/-- runLoadTest (benchmarkService.ts lines 142-199): 10 workers loop
"fetch, sleep 50ms" until the deadline, pushing into one shared
accumulator; JavaScript interleaves them on one thread, so the run is
determined by the combined sequence of fetch outcomes in completion
order, which the wall clock cuts off.  The run is parametrised by that
sequence; the aggregation tail is the unrounded one. -/
def runLoadTest (samples : List FetchOut) : BenchmarkResult :=
  let acc := collectSamples samples
  aggregateRaw acc.successCount acc.failCount acc.responses

/-- runStressTest (benchmarkService.ts lines 201-275): three phases of
workers loop "fetch, sleep 100ms" until each phase deadline, pooling all
samples into the same accumulator shape and the same unrounded
aggregation tail; parametrised by the pooled outcome sequence. -/
def runStressTest (samples : List FetchOut) : BenchmarkResult :=
  let acc := collectSamples samples
  aggregateRaw acc.successCount acc.failCount acc.responses

/-- runReliabilityTest (benchmarkService.ts lines 277-328): one fetch
every 5 seconds until the deadline, the same accumulator and the same
unrounded aggregation tail; parametrised by the sequence of fetch
outcomes that happen before the deadline (empty when the duration
permits no iteration). -/
def runReliabilityTest (samples : List FetchOut) : BenchmarkResult :=
  let acc := collectSamples samples
  aggregateRaw acc.successCount acc.failCount acc.responses

/-- Loop state of runResponseTimeTest: the requestCount counter plus the
shared accumulator fields.  In the source requestCount is incremented
exactly once per loop iteration (in the try branch right after the
fetch, in the catch branch after failCount), so requestCount doubles as
the iteration index. -/
structure RTState where
  requestCount : Nat
  successCount : Nat
  failCount : Nat
  responses : List ℚ
deriving DecidableEq

/-- One iteration body of the runResponseTimeTest while loop
(benchmarkService.ts lines 91-121), given that iteration's fetch
outcome: on a response, requestCount++ and then the response.ok split;
on a throw, failCount++ and requestCount++.  The inter-request delays
only consume time and leave the state untouched. -/
def rtStep (s : RTState) : FetchOut → RTState
  | .response status elapsed =>
      if respOk status then
        { s with requestCount := s.requestCount + 1
                 successCount := s.successCount + 1
                 responses := s.responses ++ [elapsed] }
      else
        { s with requestCount := s.requestCount + 1
                 failCount := s.failCount + 1 }
  | .thrown _ =>
      { s with requestCount := s.requestCount + 1
               failCount := s.failCount + 1 }

/-- The while loop of runResponseTimeTest (benchmarkService.ts lines
90-125).  `env i = (timeNotUp, outcome)` gives, for the iteration whose
requestCount is i, whether Date.now() < endTime held at the loop guard
and the fetch outcome of that iteration.  Guard: continue while time is
not up OR fewer than the minimum 5 requests have been made; after the
body, break as a safety measure once requestCount exceeds 100.  The
source loop needs no fuel; here `fuel` bounds the recursion and every
run of the source loop takes at most 101 iterations (the safety break
fires once requestCount passes 100), so any fuel of at least 102 from
the initial state computes the exact source behaviour
(rtLoop_fuel_high below). -/
def rtLoop (env : Nat → Bool × FetchOut) : Nat → RTState → RTState
  | 0, s => s
  | fuel + 1, s =>
      if (env s.requestCount).1 || decide (s.requestCount < 5) then
        if 100 < (rtStep s (env s.requestCount).2).requestCount then
          rtStep s (env s.requestCount).2
        else rtLoop env fuel (rtStep s (env s.requestCount).2)
      else s

/-- runResponseTimeTest (benchmarkService.ts lines 81-140): run the loop
from the zero state with sufficient fuel, then the rounded aggregation
tail. -/
def runResponseTimeTest (env : Nat → Bool × FetchOut) : BenchmarkResult :=
  let s := rtLoop env 102 ⟨0, 0, 0, []⟩
  aggregateRounded s.successCount s.failCount s.responses

/-- calculatePerformanceScore (benchmarkService.ts lines 330-353):
start at 100, deduct 30/20/10 for averageResponseTime above
1000/500/200 ms, deduct 40/20/10 for errorRate above 5/1/0.1 percent,
clamp to [0, 100]. -/
def calculatePerformanceScore (result : BenchmarkResult) : ℤ :=
  let score : ℤ := 100
  let score : ℤ :=
    if result.averageResponseTime > 1000 then score - 30
    else if result.averageResponseTime > 500 then score - 20
    else if result.averageResponseTime > 200 then score - 10
    else score
  let score : ℤ :=
    if result.errorRate > 5 then score - 40
    else if result.errorRate > 1 then score - 20
    else if result.errorRate > (1 / 10 : ℚ) then score - 10
    else score
  max 0 (min 100 score)

/-- Benchmark lifecycle statuses written by runBenchmark ('pending' is
the initial state persisted by the caller, never written here). -/
inductive BStatus where
  | running
  | completed
  | failed
deriving DecidableEq

/-- One storage operation executed by runBenchmark.  updateStatus
carries the status field of an updateBenchmark call and the attached
result fields when present (the completed write also stores the
aggregated result; the running and failed writes only timestamps).
getBenchmarkById is the one read.  createPerformanceMetrics carries
the applicationId obtained from that read and the derived record. -/
inductive BOp where
  | updateStatus (st : BStatus) (result : Option BenchmarkResult)
  | getBenchmarkById
  | createPerformanceMetrics (applicationId : Nat)
      (record : ReliabilityService.PerformanceMetricsRecord)
deriving DecidableEq

/-- The switch on the benchmark type string (benchmarkService.ts lines
28-43): the four known tags run their profile, anything else throws
"Unknown benchmark type".  Each profile run is parametrised by its own
observed environment. -/
def dispatchBenchmark (typ : String) (rtEnv : Nat → Bool × FetchOut)
    (loadSamples stressSamples relSamples : List FetchOut) :
    Option BenchmarkResult :=
  if typ = "response_time" then some (runResponseTimeTest rtEnv)
  else if typ = "load_test" then some (runLoadTest loadSamples)
  else if typ = "stress_test" then some (runStressTest stressSamples)
  else if typ = "reliability_test" then some (runReliabilityTest relSamples)
  else none

/-- runBenchmark (benchmarkService.ts lines 13-79): the list of storage
operations that execute, in order.  The try block updates the status to
running, dispatches the profile, writes the result with status
completed, reads the benchmark back with getBenchmarkById and, when the
read finds it, creates a performance-metrics record with that
benchmark's applicationId.  Any throw inside the try block (an unknown
type, or a storage operation throwing — runWriteThrows,
resultWriteThrows, getThrows, perfWriteThrows) jumps to the catch
branch, which updates the status to failed.  A throwing storage
operation does not execute; the catch-branch write is modelled as
succeeding.  `lookup` is what getBenchmarkById finds in storage: the
benchmark's applicationId, or none. -/
def runBenchmarkOps (typ : String) (rtEnv : Nat → Bool × FetchOut)
    (loadSamples stressSamples relSamples : List FetchOut)
    (runWriteThrows resultWriteThrows getThrows perfWriteThrows : Bool)
    (lookup : Option Nat) : List BOp :=
  if runWriteThrows then [.updateStatus .failed none]
  else
    match dispatchBenchmark typ rtEnv loadSamples stressSamples relSamples with
    | none => [.updateStatus .running none, .updateStatus .failed none]
    | some result =>
      if resultWriteThrows then
        [.updateStatus .running none, .updateStatus .failed none]
      else
        let base := [BOp.updateStatus .running none,
                     BOp.updateStatus .completed (some result)]
        if getThrows then base ++ [.updateStatus .failed none]
        else
          match lookup with
          | none => base ++ [.getBenchmarkById]
          | some applicationId =>
            if perfWriteThrows then
              base ++ [.getBenchmarkById, .updateStatus .failed none]
            else
              base ++ [.getBenchmarkById,
                .createPerformanceMetrics applicationId
                  { responseTime := result.averageResponseTime
                    uptime := result.successRate
                    errorRate := result.errorRate
                    performanceScore := calculatePerformanceScore result }]

/-- The sequence of Campaign status values written by a run, i.e. the
statuses of its updateBenchmark calls in order. -/
def statusWrites (ops : List BOp) : List BStatus :=
  ops.filterMap fun op =>
    match op with
    | .updateStatus st _ => some st
    | _ => none

/-- The Campaign lifecycle discipline: the status writes of a run form a
monotone path pending → running → one terminal state, with at most one
terminal write and nothing written to the Campaign afterwards (the
updateStatus operations are the only Campaign writes). -/
def campaignLifecycleOk (ops : List BOp) : Prop :=
  statusWrites ops ∈
    ([[], [.running], [.failed], [.running, .completed], [.running, .failed]] :
      List (List BStatus))

instance (ops : List BOp) : Decidable (campaignLifecycleOk ops) := by
  unfold campaignLifecycleOk
  infer_instance

/-- True for the one read operation of runBenchmark. -/
def isGetById : BOp → Bool
  | .getBenchmarkById => true
  | _ => false

/-- True for the performance-metrics write of runBenchmark. -/
def isCreatePerf : BOp → Bool
  | .createPerformanceMetrics _ _ => true
  | _ => false

/-- The sink writes of a run: its storage operations minus the one
read. -/
def sinkWrites (ops : List BOp) : List BOp :=
  ops.filter fun op => !(isGetById op)

end BenchmarkService

/-- mttr matches outageCount on a single Monitor write (trivially true
for performance writes, which carry no mttr field). -/
def ReliabilityService.mttrMatchesOutage : ReliabilityService.MonitorWrite → Bool
  | .reliability r => r.mttr == (r.outageCount : ℤ)
  | .performance _ => true

namespace ReliabilityService

/-- C9: performUptimeCheck is total at its interface — it is a plain
function of the fetch outcome, never propagating an exception (the
source wraps its whole body in try/catch).  When the transport throws,
the returned value is exactly uptime 0, responseTime 0, isOnline false
with no status code — the elapsed time until the failure is discarded —
and a status code is present exactly when an HTTP response was actually
received. -/
theorem performUptimeCheck_total_failure_shape :
    (∀ e : ℚ, performUptimeCheck (.thrown e) =
      { uptime := 0, responseTime := 0, isOnline := false, statusCode := none }) ∧
    (∀ (s : Nat) (e : ℚ), (performUptimeCheck (.response s e)).statusCode = some s) ∧
    (∀ o : FetchOut, (performUptimeCheck o).statusCode.isSome = o.gotResponse) := by
  refine ⟨fun e => rfl, fun s e => rfl, fun o => ?_⟩
  cases o <;> rfl

/-- C10: every reliability record written by a Monitor tick carries an
mttr value numerically equal to that record's outageCount — 0 when the
target is online, 1 when offline, and 1 in the tick-failure branch. -/
theorem mttr_equals_outageCount (probe : FetchOut) (relWriteThrows perfWriteThrows : Bool) :
    (checkReliability probe relWriteThrows perfWriteThrows).all mttrMatchesOutage = true := by
  cases relWriteThrows <;> cases perfWriteThrows <;>
    simp [checkReliability, mttrMatchesOutage]

/-- C1, counterexample: a tick whose check throws (here: the
createReliabilityMetrics write throws, while the probe returned a
healthy 200 response) emits only the catch-branch reliability record and
no performance record — it is not a record pair, refuting the claim that
every scheduled tick produces exactly one record pair. -/
theorem monitor_tick_throw_not_record_pair :
    isRecordPair (checkReliability (.response 200 50) true false) = false := by
  decide

/-- C1, amended: when the check throws (one of the tick's storage writes
fails; the probe itself never throws), the tick still ends with the
catch-branch reliability record representing total failure (uptime 0,
slaCompliance 0, outageCount 1), and every tick emits at least one
reliability record, so the reliability history has no gaps; the exactly
one-record-pair shape holds for every tick whose check does not
throw. -/
theorem monitor_tick_failure_record (probe : FetchOut)
    (relWriteThrows perfWriteThrows : Bool) :
    ((relWriteThrows || perfWriteThrows) = true →
      (checkReliability probe relWriteThrows perfWriteThrows).getLast? =
        some (.reliability { uptime := 0, slaCompliance := 0, outageCount := 1, mttr := 1 })) ∧
    (relWriteThrows = false → perfWriteThrows = false →
      isRecordPair (checkReliability probe relWriteThrows perfWriteThrows) = true) ∧
    1 ≤ (checkReliability probe relWriteThrows perfWriteThrows).countP isReliabilityWrite := by
  cases relWriteThrows <;> cases perfWriteThrows <;>
    simp [checkReliability, isRecordPair, isReliabilityWrite, isPerformanceWrite]

/-- C1, witness for the amended theorem at concrete inputs: a throwing
tick over a thrown probe ends with the failure record, and a
non-throwing tick is a record pair. -/
theorem monitor_tick_failure_record_witness :
    (checkReliability (.thrown 0) true false).getLast? =
      some (.reliability { uptime := 0, slaCompliance := 0, outageCount := 1, mttr := 1 }) ∧
    isRecordPair (checkReliability (.thrown 0) false false) = true :=
  ⟨(monitor_tick_failure_record (.thrown 0) true false).1 rfl,
   (monitor_tick_failure_record (.thrown 0) false false).2.1 rfl rfl⟩

end ReliabilityService

namespace BenchmarkService

/-- rtStep increments requestCount by exactly one on every outcome. -/
lemma rtStep_requestCount (s : RTState) (o : FetchOut) :
    (rtStep s o).requestCount = s.requestCount + 1 := by
  cases o <;> simp only [rtStep]
  split <;> rfl

/-- rtStep adds exactly one sample to the combined success/fail
count on every outcome. -/
lemma rtStep_counts (s : RTState) (o : FetchOut) :
    (rtStep s o).successCount + (rtStep s o).failCount = s.successCount + s.failCount + 1 := by
  cases o <;> simp only [rtStep]
  · split <;> dsimp only <;> omega
  · omega

/-- Invariant of the response-time loop: starting from a state whose
counters are consistent and whose requestCount has not yet tripped the
safety break, the loop keeps successCount + failCount = requestCount
and ends with requestCount at most 101 — the break fires on the first
iteration that pushes requestCount past 100. -/
lemma rtLoop_invariant (env : Nat → Bool × FetchOut) :
    ∀ (fuel : Nat) (s : RTState),
      s.successCount + s.failCount = s.requestCount → s.requestCount ≤ 100 →
      (rtLoop env fuel s).successCount + (rtLoop env fuel s).failCount =
        (rtLoop env fuel s).requestCount ∧
      (rtLoop env fuel s).requestCount ≤ 101 := by
  intro fuel
  induction fuel with
  | zero => intro s h1 h2; simp only [rtLoop]; exact ⟨h1, by omega⟩
  | succ n ih =>
    intro s h1 h2
    simp only [rtLoop]
    have hrc := rtStep_requestCount s (env s.requestCount).2
    have hct := rtStep_counts s (env s.requestCount).2
    by_cases hg : ((env s.requestCount).1 || decide (s.requestCount < 5)) = true
    · rw [if_pos hg]
      by_cases hb : 100 < (rtStep s (env s.requestCount).2).requestCount
      · rw [if_pos hb]
        exact ⟨by omega, by omega⟩
      · rw [if_neg hb]
        exact ih _ (by omega) (by omega)
    · rw [if_neg hg]
      exact ⟨h1, by omega⟩

/-- The loop body increments requestCount every iteration and the
safety break stops it once past 100, so from a state below the break
any two fuels large enough to cover the remaining iterations compute
the same result: the fuel 102 used in runResponseTimeTest is not a
semantic bound, merely enough. -/
lemma rtLoop_fuel_high (env : Nat → Bool × FetchOut) :
    ∀ (fuelA fuelB : Nat) (s : RTState), s.requestCount ≤ 100 →
      101 < s.requestCount + fuelA → 101 < s.requestCount + fuelB →
      rtLoop env fuelA s = rtLoop env fuelB s := by
  intro fuelA
  induction fuelA with
  | zero => intro fuelB s hle hA hB; omega
  | succ n ih =>
    intro fuelB s hle hA hB
    match fuelB with
    | 0 => omega
    | m + 1 =>
      simp only [rtLoop]
      have hrc := rtStep_requestCount s (env s.requestCount).2
      by_cases hg : ((env s.requestCount).1 || decide (s.requestCount < 5)) = true
      · rw [if_pos hg, if_pos hg]
        by_cases hb : 100 < (rtStep s (env s.requestCount).2).requestCount
        · rw [if_pos hb, if_pos hb]
        · rw [if_neg hb, if_neg hb]
          exact ih m _ (by omega) (by omega) (by omega)
      · rw [if_neg hg, if_neg hg]

/-- C4, amended: for every environment (every duration, clock behaviour
and outcome sequence), the Latency Probe issues at most 101 total
requests: the safety break only fires after requestCount exceeds 100,
so the true ceiling is 101, not 100. -/
theorem latency_probe_ceiling (env : Nat → Bool × FetchOut) :
    (runResponseTimeTest env).totalRequests ≤ 101 := by
  obtain ⟨h1, h2⟩ := rtLoop_invariant env 102 ⟨0, 0, 0, []⟩ rfl (by decide)
  simp only [runResponseTimeTest, aggregateRounded]
  omega

/-- C4, counterexample: with the deadline never reached (a long
duration) and every request failing fast, the Latency Probe issues
exactly 101 requests, exceeding the claimed ceiling of 100. -/
theorem latency_probe_ceiling_tight :
    (runResponseTimeTest (fun _ => (true, FetchOut.thrown 0))).totalRequests = 101 ∧
    ¬ (runResponseTimeTest (fun _ => (true, FetchOut.thrown 0))).totalRequests ≤ 100 := by
  decide

/-- JavaScript Math.round lands within a half unit of its argument. -/
lemma abs_round2_sub_le (x : ℚ) : |round2 x - x| ≤ 1 / 200 := by
  unfold round2 jsRound
  have h1 : ((⌊x * 100 + 1 / 2⌋ : ℤ) : ℚ) ≤ x * 100 + 1 / 2 := Int.floor_le _
  have h2 : x * 100 + 1 / 2 - 1 < ((⌊x * 100 + 1 / 2⌋ : ℤ) : ℚ) := Int.sub_one_lt_floor _
  rw [abs_le]
  constructor <;> linarith

/-- The raw success and error percentages of a non-empty sample set sum
to exactly 100. -/
lemma rates_sum_raw (s f : Nat) (h : 0 < s + f) :
    (s : ℚ) / ((s + f : Nat) : ℚ) * 100 + (f : ℚ) / ((s + f : Nat) : ℚ) * 100 = 100 := by
  have ht : (0 : ℚ) < (s : ℚ) + (f : ℚ) := by
    have := Nat.cast_pos (α := ℚ) |>.mpr h
    push_cast at this
    linarith
  push_cast
  field_simp
  ring

/-- The two-decimal rounding idiom indeed produces a value with at most
two decimal places. -/
lemma twoDecimalPlaces_round2 (x : ℚ) : twoDecimalPlaces (round2 x) = true := by
  unfold twoDecimalPlaces round2
  have h : ((jsRound (x * 100) : ℤ) : ℚ) / 100 * 100 = ((jsRound (x * 100) : ℤ) : ℚ) := by
    field_simp
  rw [h]
  simp

/-- The responses array accumulated by the shared profile loop body is
exactly the list of elapsed times of the successful samples, in
order. -/
lemma collectSamples_responses_go (samples : List FetchOut) :
    ∀ acc : SampleAcc,
      (samples.foldl recordSample acc).responses = acc.responses ++ successElapsed samples := by
  induction samples with
  | nil => intro acc; simp [successElapsed]
  | cons o rest ih =>
    intro acc
    cases o with
    | response status elapsed =>
      by_cases hok : respOk status = true
      · simp [recordSample, hok, successElapsed, ih]
      · simp only [Bool.not_eq_true] at hok
        simp [recordSample, hok, successElapsed, ih]
    | thrown e =>
      simp [recordSample, successElapsed, ih]

/-- C7: for every Result of any profile (all profile aggregations are
instances of aggregateRounded or aggregateRaw over the accumulated
counters), successfulRequests + failedRequests equals totalRequests
exactly; and whenever totalRequests is positive the success and error
rates sum to exactly 100 for the unrounded profiles and to 100 within
the 2-decimal rounding slack (at most 1/100 away) for the latency-probe
profile. -/
theorem result_counts_and_rates (s f : Nat) (rs : List ℚ) :
    (aggregateRounded s f rs).successfulRequests + (aggregateRounded s f rs).failedRequests =
      (aggregateRounded s f rs).totalRequests ∧
    (aggregateRaw s f rs).successfulRequests + (aggregateRaw s f rs).failedRequests =
      (aggregateRaw s f rs).totalRequests ∧
    (0 < s + f →
      (aggregateRaw s f rs).successRate + (aggregateRaw s f rs).errorRate = 100 ∧
      |(aggregateRounded s f rs).successRate + (aggregateRounded s f rs).errorRate - 100| ≤
        1 / 100) := by
  refine ⟨rfl, rfl, fun h => ⟨?_, ?_⟩⟩
  · simp only [aggregateRaw]
    rw [if_pos (by omega), if_pos (by omega)]
    exact rates_sum_raw s f h
  · simp only [aggregateRounded]
    rw [if_pos (by omega), if_pos (by omega)]
    have hx := rates_sum_raw s f h
    have ha := abs_round2_sub_le ((s : ℚ) / ((s + f : Nat) : ℚ) * 100)
    have hb := abs_round2_sub_le ((f : ℚ) / ((s + f : Nat) : ℚ) * 100)
    rw [abs_le] at ha hb ⊢
    constructor <;> linarith

/-- C7, witness at a concrete non-empty sample set: one success and one
failure with a 50 ms successful response. -/
theorem result_counts_and_rates_witness :
    (aggregateRaw 1 1 ([50] : List ℚ)).successRate + (aggregateRaw 1 1 [50]).errorRate = 100 ∧
    |(aggregateRounded 1 1 ([50] : List ℚ)).successRate +
      (aggregateRounded 1 1 [50]).errorRate - 100| ≤ 1 / 100 :=
  (result_counts_and_rates 1 1 [50]).2.2 (by omega)

/-- C6, counterexample: a Load Test campaign with one success out of
three requests has successRate 100/3, which does not carry two decimal
places — refuting the claim that all four profiles round their rate
figures to 2 decimal places. -/
theorem load_test_rate_not_two_decimals :
    twoDecimalPlaces
      ((runLoadTest [.thrown 0, .thrown 0, .response 200 50]).successRate) = false := by
  norm_num [twoDecimalPlaces, runLoadTest, collectSamples, aggregateRaw, List.foldl,
    recordSample, respOk]

/-- C6, amended: the shared accumulation collects the elapsed times of
successful samples only; the latency-probe aggregation rounds its rates
to 2 decimal places and its average with Math.round, while the
aggregation used by the other three profiles reports the raw mean of
the successful elapsed times (and raw rates, per the counterexample);
in all profiles failed samples contribute to the counts but never to
the latency average. -/
theorem aggregation_success_only_average (samples : List FetchOut) (s f : Nat) (rs : List ℚ) :
    (collectSamples samples).responses = successElapsed samples ∧
    twoDecimalPlaces (aggregateRounded s f rs).successRate = true ∧
    twoDecimalPlaces (aggregateRounded s f rs).errorRate = true ∧
    (rs ≠ [] → (aggregateRaw s f rs).averageResponseTime = rs.sum / rs.length) ∧
    (rs ≠ [] →
      (aggregateRounded s f rs).averageResponseTime = (jsRound (rs.sum / rs.length) : ℚ)) := by
  refine ⟨by simpa [collectSamples] using collectSamples_responses_go samples ⟨0, 0, []⟩,
    ?_, ?_, fun hne => ?_, fun hne => ?_⟩
  · simp only [aggregateRounded]
    split
    · exact twoDecimalPlaces_round2 _
    · simp [twoDecimalPlaces]
  · simp only [aggregateRounded]
    split
    · exact twoDecimalPlaces_round2 _
    · simp [twoDecimalPlaces]
  · simp only [aggregateRaw]
    rw [if_pos (by simpa [List.length_pos] using hne)]
  · simp only [aggregateRounded]
    rw [if_pos (by simpa [List.length_pos] using hne)]

/-- C6, witness at concrete inputs: one successful 200-response of
50 ms accumulates a one-element responses list, and the non-empty
averages evaluate as stated. -/
theorem aggregation_success_only_average_witness :
    (aggregateRaw 1 1 ([50] : List ℚ)).averageResponseTime =
      ([50] : List ℚ).sum / (([50] : List ℚ).length : ℚ) ∧
    (aggregateRounded 1 1 ([50] : List ℚ)).averageResponseTime =
      (jsRound (([50] : List ℚ).sum / (([50] : List ℚ).length : ℚ)) : ℚ) :=
  ⟨(aggregation_success_only_average [] 1 1 [50]).2.2.2.1 (by simp),
   (aggregation_success_only_average [] 1 1 [50]).2.2.2.2 (by simp)⟩

/-- C2, counterexample: a reliability-test campaign whose five samples
all failed yields errorRate 100 and averageResponseTime 0, and the
derived performance score is not 0: the claim that the score is exactly
0 when every sample fails is false on the code. -/
theorem score_all_failed_not_zero :
    (runReliabilityTest (List.replicate 5 (FetchOut.thrown 0))).errorRate = 100 ∧
    (runReliabilityTest (List.replicate 5 (FetchOut.thrown 0))).averageResponseTime = 0 ∧
    calculatePerformanceScore (runReliabilityTest (List.replicate 5 (FetchOut.thrown 0))) ≠
      0 := by
  norm_num [calculatePerformanceScore, runReliabilityTest, collectSamples, aggregateRaw,
    List.replicate, recordSample]

/-- C2, amended: for every Result in which every sample failed
(errorRate 100, and averageResponseTime 0 since no successful samples
exist), the derived performance score is exactly 60: the 40-point
error-rate deduction applies and no latency deduction does. -/
theorem score_all_failed (r : BenchmarkResult) (he : r.errorRate = 100)
    (ha : r.averageResponseTime = 0) : calculatePerformanceScore r = 60 := by
  unfold calculatePerformanceScore
  rw [he, ha]
  norm_num

/-- C2, witness: the all-failed Result with five samples scores 60. -/
theorem score_all_failed_witness :
    calculatePerformanceScore
      { averageResponseTime := 0, successRate := 0, errorRate := 100,
        totalRequests := 5, successfulRequests := 0, failedRequests := 5 } = 60 :=
  score_all_failed _ rfl rfl

/-- C3, counterexample: the derived performance score of the empty
campaign is not zero, refuting the claim that for an empty sample set
the score is zero. -/
theorem empty_campaign_score_not_zero :
    calculatePerformanceScore (runReliabilityTest []) ≠ 0 := by
  norm_num [calculatePerformanceScore, runReliabilityTest, collectSamples, aggregateRaw]

/-- C3, amended: for a campaign whose sample set is empty, every field
of the aggregated Result is zero, and the derived performance score is
100 — the zero average and zero error rate trigger no deduction. -/
theorem empty_campaign_result :
    runReliabilityTest [] =
      { averageResponseTime := 0, successRate := 0, errorRate := 0,
        totalRequests := 0, successfulRequests := 0, failedRequests := 0 } ∧
    calculatePerformanceScore (runReliabilityTest []) = 100 := by
  constructor
  · rfl
  · norm_num [calculatePerformanceScore, runReliabilityTest, collectSamples, aggregateRaw]

/-- C5, counterexample: a reliability-test campaign with an empty
sample window, no storage faults except the performance-metrics write
throwing, and a benchmark found by the read-back.  The Campaign's
status writes are running, completed and then failed: the catch handler
writes a third status transition after the terminal completed state,
refuting the claim that no Campaign write occurs after a terminal state
even when the post-completion performance-metrics write throws. -/
theorem campaign_write_after_completed :
    statusWrites (runBenchmarkOps "reliability_test" (fun _ => (false, FetchOut.thrown 0))
        [] [] [] false false false true (some 7)) =
      [BStatus.running, BStatus.completed, BStatus.failed] ∧
    ¬ campaignLifecycleOk (runBenchmarkOps "reliability_test" (fun _ => (false, FetchOut.thrown 0))
        [] [] [] false false false true (some 7)) := by
  constructor
  · decide
  · decide

/-- C5, amended: in every execution of runBenchmark in which the two
post-completion storage operations (the getBenchmarkById read-back and
the createPerformanceMetrics write) do not throw — the profile
environment, the benchmark type, faults of the two earlier status
writes, and the read-back's answer all arbitrary — the Campaign's
status writes form a monotone pending → running → terminal path with at
most one terminal write and no Campaign write after it. -/
theorem campaign_lifecycle (typ : String) (rtEnv : Nat → Bool × FetchOut)
    (loadSamples stressSamples relSamples : List FetchOut)
    (runWriteThrows resultWriteThrows : Bool) (lookup : Option Nat) :
    campaignLifecycleOk (runBenchmarkOps typ rtEnv loadSamples stressSamples relSamples
      runWriteThrows resultWriteThrows false false lookup) := by
  cases runWriteThrows with
  | true => simp [runBenchmarkOps, campaignLifecycleOk, statusWrites]
  | false =>
    cases hd : dispatchBenchmark typ rtEnv loadSamples stressSamples relSamples with
    | none => simp [runBenchmarkOps, hd, campaignLifecycleOk, statusWrites]
    | some result =>
      cases resultWriteThrows with
      | true => simp [runBenchmarkOps, hd, campaignLifecycleOk, statusWrites]
      | false =>
        cases lookup with
        | none => simp [runBenchmarkOps, hd, campaignLifecycleOk, statusWrites]
        | some appId => simp [runBenchmarkOps, hd, campaignLifecycleOk, statusWrites]

/-- C8, counterexample: two storage contents — one where the completed
benchmark's read-back finds it (applicationId 7) and one where it finds
nothing — make runBenchmark emit different sink-write sequences (the
performance-metrics write is present in the first and absent in the
second), refuting the claim that the engine's writes are identical for
any two storage contents. -/
theorem sink_writes_depend_on_storage :
    sinkWrites (runBenchmarkOps "reliability_test" (fun _ => (false, FetchOut.thrown 0))
        [] [] [] false false false false (some 7)) ≠
    sinkWrites (runBenchmarkOps "reliability_test" (fun _ => (false, FetchOut.thrown 0))
        [] [] [] false false false false none) := by
  decide

/-- C8, amended: runBenchmark does read back through the storage
interface (getBenchmarkById), and the one operation depending on what
storage holds is the post-completion performance-metrics write, emitted
only when the read finds the benchmark; with that write excluded (and
not throwing), the storage-operation sequence is identical for any two
storage contents.  (The Monitor's checkReliability is a function of the
probe outcome and write faults alone — the model takes no storage
input — so Monitor ticks never read.) -/
theorem storage_independent_ops (typ : String) (rtEnv : Nat → Bool × FetchOut)
    (loadSamples stressSamples relSamples : List FetchOut)
    (runWriteThrows resultWriteThrows getThrows : Bool) (lookupA lookupB : Option Nat) :
    (runBenchmarkOps typ rtEnv loadSamples stressSamples relSamples
        runWriteThrows resultWriteThrows getThrows false lookupA).filter
      (fun op => !(isCreatePerf op)) =
    (runBenchmarkOps typ rtEnv loadSamples stressSamples relSamples
        runWriteThrows resultWriteThrows getThrows false lookupB).filter
      (fun op => !(isCreatePerf op)) := by
  cases runWriteThrows with
  | true => rfl
  | false =>
    cases hd : dispatchBenchmark typ rtEnv loadSamples stressSamples relSamples with
    | none => simp [runBenchmarkOps, hd]
    | some result =>
      cases resultWriteThrows with
      | true => simp [runBenchmarkOps, hd]
      | false =>
        cases getThrows with
        | true => simp [runBenchmarkOps, hd]
        | false =>
          cases lookupA <;> cases lookupB <;> simp [runBenchmarkOps, hd, isCreatePerf]

end BenchmarkService
